import Mathlib

/-!
# Verification of the live-translate real-time audio pipeline

Shallow embedding of the core of the `live-translate-rs` repository:

* the worker-thread recording state machine (`process_audio` in `src/main.rs`),
* the playback-buffer drain loop of the real-time callback
  (the closure in `src/main.rs` and the handler in `src/sound/audio_jack.rs`),
* the pipeline-orchestrator functions `translate_and_play` (`src/main.rs`)
  and `play_tts` (`src/piper.rs`),
* the `resample` wrapper (`src/util.rs`).

External collaborators (the webrtc VAD, whisper, the piper HTTP server, the
speexdsp resampler, the JACK server) are modelled as oracle parameters: each
call site receives the collaborator's answer for that call as an explicit
argument, exactly at the point where the Rust code performs the call.  A
`.unwrap()` on a collaborator failure in the Rust code is modelled as
propagating an `Except.error` (the thread panics); explicit `match`/`if let`
error handling is modelled by the corresponding branch.
-/

namespace LiveTranslate

/-- Wrap-around of a Rust `u32` (release-mode overflow semantics). -/
def u32 (n : Nat) : Nat := n % 4294967296

/-- Worker-thread-local recording state of `process_audio` (`src/main.rs`):
`recording: bool`, `silence: u32`, `samples: Vec<f32>`. -/
structure RecState where
  recording : Bool
  silence : Nat
  samples : List Float

/-- Initial state of `process_audio`: `recording = false`, `silence = 0`,
`samples = vec![]`. -/
def initState : RecState := ⟨false, 0, []⟩

/-- One iteration of the `ProcessUnit::Continue` arm of `process_audio`
(`src/main.rs` lines 254-309), factored over the VAD collaborator's answer
`vad` for this block (`vad.is_voice_segment(..)`), and over the silence
threshold (the source hardcodes `10` at line 284, with a TODO to make it
configurable; the newer `WhisperConfig.silence_length` in `src/whisper.rs`
is the configurable counterpart).  Returns the updated state and the emitted
utterance, if any; `Except.error` models the panic of
`vad.is_voice_segment(&samples_int).unwrap()` when the collaborator fails.

Faithful details: while recording, the block is appended to `samples`
*before* the silence check; the threshold test `silence >= 10` runs on the
*updated* counter; on emission `recording` is set to `false` but neither
`silence` nor `samples` is reset; on the Idle-to-Recording transition
`samples` is cleared and the block appended, but `silence` is left unchanged. -/
def processStep (threshold : Nat) (s : RecState) (block : List Float)
    (vad : Except Unit Bool) : Except Unit (RecState × Option (List Float)) :=
  match vad with
  | .error e => .error e
  | .ok isVoice =>
    if s.recording then
      let samples := s.samples ++ block
      let silence := if isVoice then 0 else u32 (s.silence + 1)
      if threshold ≤ silence then
        .ok (⟨false, silence, samples⟩, some samples)
      else
        .ok (⟨true, silence, samples⟩, none)
    else
      if isVoice then
        .ok (⟨true, s.silence, block⟩, none)
      else
        .ok (s, none)

/-- One message of the worker loop: a `ProcessUnit::Continue` block together
with the VAD collaborator's answer for it, or `ProcessUnit::Quit`. -/
inductive WorkerEvent where
  | cont (block : List Float) (vad : Except Unit Bool)
  | quit

/-- The receive loop of `process_audio` (`src/main.rs` lines 252-313): folds
`processStep` over the message sequence, collecting emitted utterances in
emission order; `Quit` breaks out of the loop; a VAD panic aborts the run. -/
def processAudio (threshold : Nat) :
    RecState → List WorkerEvent → Except Unit (RecState × List (List Float))
  | s, [] => .ok (s, [])
  | s, .quit :: _ => .ok (s, [])
  | s, .cont b v :: rest =>
    match processStep threshold s b v with
    | .error e => .error e
    | .ok (s1, u) =>
      match processAudio threshold s1 rest with
      | .error e => .error e
      | .ok (sF, us) =>
        .ok (sF, match u with | none => us | some x => x :: us)

/-- Pop the front sample of the playback buffer (`VecDeque::pop_front`). -/
def popFront : List Float → Option Float × List Float
  | [] => (none, [])
  | x :: xs => (some x, xs)

/-- The per-cycle drain loop of the real-time callback (`src/main.rs` lines
431-434 and `src/sound/audio_jack.rs` lines 125-128):
`for frame in out_buf.iter_mut() { *frame = play_buffer.pop_front().unwrap_or(0.0); }`.
Returns the filled output buffer (one slot per output frame) and the
remaining playback buffer. -/
def drainCycle : Nat → List Float → List Float × List Float
  | 0, buf => ([], buf)
  | n + 1, buf =>
    let p := popFront buf
    let r := drainCycle n p.2
    (p.1.getD 0.0 :: r.1, r.2)

/-- The empty playback buffer (`VecDeque::new()`, `src/main.rs` line 397). -/
def emptyPlayBuffer : List Float := []

/-- Producer side of the playback buffer
(`play_buffer.append(&mut Into::<VecDeque<_>>::into(resampled))`,
`src/main.rs` line 155 / `src/piper.rs` line 206): appends to the back. -/
def appendSamples (buf new : List Float) : List Float := buf ++ new

/-! ## Specification-side segment tracking

The spec states that an emitted utterance is "the concatenation, in arrival
order, of every block received between the entering-`Recording` event and
the emission (inclusive)".  `SegState`/`segStep`/`segRun` track exactly that
set of blocks — the list of blocks received from the Idle-to-Recording
trigger block onwards — while following the same recording/silence dynamics
as the code; the emitted item is the block list itself, not its
concatenation.  The refinement theorem for C3 relates `processAudio`'s
emitted sample sequences to the joins of these block segments. -/

/-- Spec-side state: as `RecState`, but holding the list of blocks received
since the block that caused the Idle-to-Recording transition, in arrival
order, instead of their concatenated samples. -/
structure SegState where
  recording : Bool
  silence : Nat
  blocks : List (List Float)

/-- Initial spec-side state. -/
def initSeg : SegState := ⟨false, 0, []⟩

/-- Spec-side step: same transition structure as `processStep`, but the
trigger block starts a fresh one-element block list, each block received
while recording is appended to the list, and an emission emits the block
list gathered from the trigger up to and including the current block. -/
def segStep (threshold : Nat) (t : SegState) (block : List Float)
    (vad : Except Unit Bool) :
    Except Unit (SegState × Option (List (List Float))) :=
  match vad with
  | .error e => .error e
  | .ok isVoice =>
    if t.recording then
      let blocks := t.blocks ++ [block]
      let silence := if isVoice then 0 else u32 (t.silence + 1)
      if threshold ≤ silence then
        .ok (⟨false, silence, blocks⟩, some blocks)
      else
        .ok (⟨true, silence, blocks⟩, none)
    else
      if isVoice then
        .ok (⟨true, t.silence, [block]⟩, none)
      else
        .ok (t, none)

/-- Spec-side run: folds `segStep` over the message sequence, collecting the
emitted block segments in emission order. -/
def segRun (threshold : Nat) :
    SegState → List WorkerEvent → Except Unit (SegState × List (List (List Float)))
  | t, [] => .ok (t, [])
  | t, .quit :: _ => .ok (t, [])
  | t, .cont b v :: rest =>
    match segStep threshold t b v with
    | .error e => .error e
    | .ok (t1, u) =>
      match segRun threshold t1 rest with
      | .error e => .error e
      | .ok (tF, us) =>
        .ok (tF, match u with | none => us | some x => x :: us)

/-- Correspondence between a spec-side state and a code state: the
accumulated samples are the concatenation of the tracked blocks. -/
def toRec (t : SegState) : RecState := ⟨t.recording, t.silence, t.blocks.flatten⟩

/-- A state of `process_audio`'s worker loop is reachable when it is the
final state of some successful run from the initial state. -/
def Reachable (threshold : Nat) (s : RecState) : Prop :=
  ∃ evs res, processAudio threshold initState evs = .ok res ∧ res.1 = s

/-! ## The real-time callback -/

/-- `jack::Control`: the value the process callback returns to the server. -/
inductive Control where
  | Continue
  | Quit
deriving DecidableEq

/-- Observable outcome of one callback invocation: the block delivered on
the channel (if the send succeeded), the returned control value, the
playback buffer after the cycle, and the output hardware buffer as written
(none when the callback returned before writing it). -/
structure CallbackResult where
  sent : Option (List Float)
  control : Control
  playBuffer : List Float
  output : Option (List Float)

/-- The handler installed by `JackClient::start`
(`src/sound/audio_jack.rs` lines 101-133).  `receiverGone` is true when
`audio_tx.send` fails (worker receiver dropped); `lockPoisoned` when
`play_buffer.lock()` fails.  Both failures are logged and the handler
returns `Control::Continue` early, leaving the playback buffer untouched;
otherwise it sends the input block and drains one cycle. -/
def jackClientCallback (inBuf : List Float) (receiverGone lockPoisoned : Bool)
    (playBuf : List Float) (nOut : Nat) : CallbackResult :=
  if receiverGone then
    ⟨none, .Continue, playBuf, none⟩
  else if lockPoisoned then
    ⟨some inBuf, .Continue, playBuf, none⟩
  else
    let d := drainCycle nOut playBuf
    ⟨some inBuf, .Continue, d.2, some d.1⟩

/-- The closure passed to `ClosureProcessHandler::new` in `main`
(`src/main.rs` lines 413-440).  Here `audio_tx_cloned.send(..).unwrap()`
and `play_buffer.lock().unwrap()` panic on failure, modelled as
`Except.error`; on the happy path the callback drains one cycle and
returns `Control::Continue`. -/
def mainCallback (inBuf : List Float) (receiverGone lockPoisoned : Bool)
    (playBuf : List Float) (nOut : Nat) : Except Unit CallbackResult :=
  if receiverGone then
    .error ()
  else if lockPoisoned then
    .error ()
  else
    let d := drainCycle nOut playBuf
    .ok ⟨some inBuf, .Continue, d.2, some d.1⟩

/-! ## Resampling (`src/util.rs`) -/

/-- Length of the output buffer allocated by `resample`
(`src/util.rs` line 14):
`((samples.len() as f64 * to as f64 / from as f64).ceil() as usize) + 512`.
The `f64` ceiling computation is modelled by the exact natural-number
ceiling `(n * to + from - 1) / from` (equal to `⌈n·to/from⌉` whenever
`from > 0`). -/
def resampledLen (n fromRate toRate : Nat) : Nat :=
  (n * toRate + fromRate - 1) / fromRate + 512

/-- Oracle for the external speexdsp collaborator.  `newState` models
`State::new(1, from, to, 4)`; `processFloat` models
`resampler.process_float(0, &samples, &mut resampled)`, receiving the input
samples and the preallocated output buffer and returning the buffer as
filled.  `process_float` writes through a `&mut [f32]` slice and therefore
cannot change the buffer's length; `processFloat_length` records that
library fact. -/
structure SpeexOracle where
  newState : Nat → Nat → Except Unit Unit
  processFloat : List Float → List Float → Except Unit (List Float)
  processFloat_length : ∀ inp out res,
    processFloat inp out = .ok res → res.length = out.length

/-- `resample` (`src/util.rs` lines 1-21): create the resampler state,
allocate a zero-filled output buffer of `resampledLen` samples, run the
collaborator over it, and return the whole buffer (the written prefix plus
the trailing padding); either collaborator failure propagates via `?`. -/
def resample (o : SpeexOracle) (samples : List Float)
    (fromRate toRate : Nat) : Except Unit (List Float) :=
  match o.newState fromRate toRate with
  | .error e => .error e
  | .ok _ =>
    match o.processFloat samples
        (List.replicate (resampledLen samples.length fromRate toRate) 0.0) with
    | .error e => .error e
    | .ok res => .ok res

/-! ## Pipeline orchestrator (`src/piper.rs` and `src/main.rs`) -/

/-- `sample as f32 / i16::MAX as f32` (`src/piper.rs` line 195,
`src/main.rs` line 144): scale an i16 WAV sample to float. -/
def i16ToFloat (i : Int) : Float := Float.ofInt i / 32767.0

/-- Rust's `result.trim().is_empty()` (`src/main.rs` line 118,
`src/whisper.rs` line 176): true exactly when every character of the string
is whitespace. -/
def trimmedEmpty (s : String) : Bool := s.toList.all Char.isWhitespace

/-- `play_tts` (`src/piper.rs` lines 178-209), over oracle inputs.
`ttsResponse` is the combined outcome of the fallible stages before any
buffer access — the HTTP POST (`send()?`/`bytes()?`), the WAV header parse
(`WavReader::new(..)?`) and the per-sample reads (`sample?`) — yielding the
i16 samples and the WAV sample rate on success; `resampler` stands for
`crate::util::resample`.  Every failure returns with `?` before the
playback buffer is locked; only the fully successful path appends to it.
Returns the function's result together with the resulting buffer. -/
def play_tts (playBuf : List Float)
    (ttsResponse : Except Unit (List Int × Nat))
    (resampler : List Float → Nat → Nat → Except Unit (List Float)) :
    Except Unit Unit × List Float :=
  match ttsResponse with
  | .error e => (.error e, playBuf)
  | .ok (ints, rate) =>
    let samples := ints.map i16ToFloat
    match resampler samples rate 48000 with
    | .error e => (.error e, playBuf)
    | .ok res => (.ok (), appendSamples playBuf res)

/-- `translate_and_play` (`src/main.rs` lines 108-156), over oracle inputs.
`transcription` is the string returned by `transcribe` (whose own failures
panic inside it); an empty-after-trim result returns early.  The TTS HTTP
call, WAV parse, per-sample reads and `resample` are all `.unwrap()`ed, so
any of their failures panics the worker thread, modelled as `Except.error`;
the successful path appends the resampled audio to the playback buffer. -/
def translate_and_play (playBuf : List Float) (transcription : String)
    (ttsResponse : Except Unit (List Int × Nat))
    (resampler : List Float → Nat → Nat → Except Unit (List Float)) :
    Except Unit (List Float) :=
  if trimmedEmpty transcription then
    .ok playBuf
  else
    match ttsResponse with
    | .error _ => .error ()
    | .ok (ints, rate) =>
      let samples := ints.map i16ToFloat
      match resampler samples rate 48000 with
      | .error _ => .error ()
      | .ok res => .ok (appendSamples playBuf res)

/-! ## Concrete test inputs -/

/-- A one-sample block classified as voice by the VAD oracle. -/
def voicedBlock : WorkerEvent := .cont [0.5] (.ok true)

/-- A one-sample block classified as non-voice by the VAD oracle. -/
def silentBlock : WorkerEvent := .cont [0.5] (.ok false)

/-! ## The claims under refutation, as stated -/

/-- Claim C4 as stated: in every reachable Idle state of the worker loop
(threshold 10 as in the source), a block with VoiceDecision=false leaves
the accumulator empty and the state Idle. -/
def ClaimC4 : Prop :=
  ∀ s : RecState, Reachable 10 s → s.recording = false →
    ∀ b : List Float, ∀ r, processStep 10 s b (.ok false) = .ok r →
      r.1.recording = false ∧ r.1.samples = []

/-- Claim C7 as stated: when the VAD collaborator fails, the worker logs
and skips the state update for the block, leaving state, counter and
accumulator unchanged, and does not crash. -/
def ClaimC7 : Prop :=
  ∀ (threshold : Nat) (s : RecState) (b : List Float),
    processStep threshold s b (.error ()) = .ok (s, none)

/-- Claim C8 as stated for the callback wired up by `main`
(`src/main.rs` lines 413-440): every invocation, including those where the
channel send fails or the lock is poisoned, returns a `Continue` outcome
rather than panicking. -/
def ClaimC8 : Prop :=
  ∀ (inBuf : List Float) (receiverGone lockPoisoned : Bool)
    (playBuf : List Float) (nOut : Nat),
    ∃ r, mainCallback inBuf receiverGone lockPoisoned playBuf nOut = .ok r ∧
      r.control = .Continue

/-- Claim C9 as stated for the worker of `src/main.rs`: when synthesis
fails, the playback buffer is unchanged and the worker continues (returns
normally) instead of crashing. -/
def ClaimC9 : Prop :=
  ∀ (playBuf : List Float) (transcription : String)
    (resampler : List Float → Nat → Nat → Except Unit (List Float)),
    translate_and_play playBuf transcription (.error ()) resampler = .ok playBuf

/-! ## Helper lemmas -/

/-- Closed form of the drain loop: the output buffer gets the first `n`
buffered samples padded with `0.0`, and the buffer loses its first `n`
samples. -/
theorem drainCycle_eq (n : Nat) (buf : List Float) :
    drainCycle n buf
      = (buf.take n ++ List.replicate (n - buf.length) 0.0, buf.drop n) := by
  induction n generalizing buf with
  | zero => simp [drainCycle]
  | succ n ih =>
    cases buf with
    | nil => simp [drainCycle, popFront, ih, List.replicate_succ]
    | cons x xs => simp [drainCycle, popFront, ih]

/-- One step of the code machine simulates one step of the spec-side
segment tracker: the accumulated samples are the flattened tracked blocks,
and an emitted utterance is the flattened emitted segment. -/
theorem processStep_segStep (threshold : Nat) (t : SegState) (b : List Float)
    (v : Except Unit Bool) :
    processStep threshold (toRec t) b v
      = (segStep threshold t b v).map
          (fun p => (toRec p.1, p.2.map List.flatten)) := by
  cases v with
  | error e => rfl
  | ok isVoice =>
    simp only [processStep, segStep, toRec]
    cases hrec : t.recording with
    | false => cases isVoice <;> simp [Except.map, hrec]
    | true =>
      cases isVoice with
      | false =>
        by_cases hc : threshold ≤ u32 (t.silence + 1) <;>
          simp [Except.map, hrec, hc, List.flatten_append]
      | true =>
        by_cases hc : threshold = 0 <;>
          simp [Except.map, hrec, hc, List.flatten_append]

/-- Run-level simulation: from coupled states, the worker loop and the
segment tracker succeed or fail together, end in coupled states, and the
emitted utterances are exactly the flattened emitted segments. -/
theorem processAudio_segRun (threshold : Nat) (evs : List WorkerEvent) :
    ∀ t : SegState,
      processAudio threshold (toRec t) evs
        = (segRun threshold t evs).map
            (fun p => (toRec p.1, p.2.map List.flatten)) := by
  induction evs with
  | nil => intro t; rfl
  | cons e rest ih =>
    intro t
    cases e with
    | quit => rfl
    | cont b v =>
      simp only [processAudio, segRun, processStep_segStep threshold t b v]
      cases h : segStep threshold t b v with
      | error e => simp [Except.map]
      | ok p =>
        obtain ⟨t1, u⟩ := p
        simp only [Except.map, ih t1]
        cases h2 : segRun threshold t1 rest with
        | error e => simp
        | ok q => cases u <;> simp

/-! ## Claim theorems -/

/-- C1: the claim says an utterance is emitted exactly after `T` (here 10)
consecutive false decisions since the last true decision, for every
utterance of the run.  The code violates this: because `silence` is not
reset when a new recording starts, the run
`[voice, 10 × silent, voice, silent]` emits a second utterance of only 2
blocks (2 samples here) after a single false decision — the stale counter
`10` is incremented to `11 ≥ 10` on the first silent block of the second
utterance.  This theorem evaluates the embedded worker loop at that failing
input: two utterances are emitted, of 11 and 2 samples. -/
theorem second_utterance_cut_short :
    (processAudio 10 initState
        ([voicedBlock] ++ List.replicate 10 silentBlock
          ++ [voicedBlock, silentBlock])).map
      (fun p => p.2.map List.length) = .ok [11, 2] := by
  rfl

/-- C2: the claim says the Idle-to-Recording transition clears the
accumulator, appends the triggering block and sets `silence_count` to 0.
The code clears and appends but leaves `silence` unchanged: after
`[voice, 10 × silent, voice]` the machine has just re-entered `Recording`
(accumulator holds exactly the 1-sample triggering block) yet
`silence = 10`, not 0. -/
theorem idle_to_recording_keeps_stale_silence :
    (processAudio 10 initState
        ([voicedBlock] ++ List.replicate 10 silentBlock ++ [voicedBlock])).map
      (fun p => (p.1.recording, p.1.silence, p.1.samples.length))
      = .ok (true, 10, 1) := by
  rfl

/-- C3: every utterance emitted by the worker loop equals the
concatenation, in arrival order, of every block received from the
Idle-to-Recording trigger block up to and including the emitting block.
`segRun` tracks exactly those block segments; the emitted sample sequences
of `processAudio` are their flattenings (and the two runs agree on
success/failure). -/
theorem emitted_utterances_are_segment_concats (threshold : Nat)
    (evs : List WorkerEvent) :
    (processAudio threshold initState evs).map (fun p => p.2)
      = (segRun threshold initSeg evs).map
          (fun p => p.2.map List.flatten) := by
  have h : toRec initSeg = initState := rfl
  have h2 := processAudio_segRun threshold evs initSeg
  rw [h] at h2
  rw [h2]
  cases segRun threshold initSeg evs <;> rfl

/-- C4 counterexample: the claim fails as stated.  After the run
`[voice, 10 × silent]` (threshold 10) the machine is back in Idle but the
accumulator still holds the 11 emitted blocks — a further false block
leaves it non-empty, refuting "the accumulator is empty whenever the state
is Idle, including after an utterance has been emitted". -/
theorem idle_accumulator_not_always_empty : ¬ ClaimC4 := by
  intro h
  have hreach : Reachable 10 ⟨false, 10, List.replicate 11 (0.5 : Float)⟩ :=
    ⟨[voicedBlock] ++ List.replicate 10 silentBlock,
     (⟨false, 10, List.replicate 11 (0.5 : Float)⟩,
       [List.replicate 11 (0.5 : Float)]), rfl, rfl⟩
  have h2 := h ⟨false, 10, List.replicate 11 (0.5 : Float)⟩ hreach rfl [0.5]
    (⟨false, 10, List.replicate 11 (0.5 : Float)⟩, none) rfl
  have h3 := congrArg List.length h2.2
  simp at h3

/-- C4 (amended): in every Idle state, a block with VoiceDecision=false is
a strict no-op — the whole state (accumulator included) is unchanged, the
state stays Idle and nothing is emitted.  (The accumulator itself need not
be empty: after an emission it retains the emitted samples until the next
recording starts.) -/
theorem idle_false_is_noop (threshold : Nat) (s : RecState) (b : List Float)
    (h : s.recording = false) :
    processStep threshold s b (.ok false) = .ok (s, none) := by
  simp [processStep, h]

/-- Witness for `idle_false_is_noop` at a concrete Idle state. -/
theorem idle_false_is_noop_witness :
    initState.recording = false
      ∧ processStep 10 initState [0.5] (.ok false) = .ok (initState, none) :=
  ⟨rfl, idle_false_is_noop 10 initState [0.5] rfl⟩

/-- C5: the per-cycle drain is a total function of the buffer state and
output size: each output slot receives the next buffered sample, or `0.0`
once the buffer is exhausted — in particular a fully empty buffer yields
`0.0` in every slot — and no error or blocking branch exists. -/
theorem drain_total_empty_yields_silence (n : Nat) (buf : List Float) :
    (drainCycle n buf).1.length = n
      ∧ (drainCycle n buf).1
          = buf.take n ++ List.replicate (n - buf.length) 0.0
      ∧ (drainCycle n []).1 = List.replicate n 0.0
      ∧ (drainCycle n buf).2 = buf.drop n := by
  refine ⟨?_, ?_, ?_, ?_⟩
  · rw [drainCycle_eq]
    simp
    omega
  · rw [drainCycle_eq]
  · rw [drainCycle_eq]
    simp
  · rw [drainCycle_eq]

/-- C6: FIFO round-trip — appending `N` samples to the empty playback
buffer and popping `N` samples from the front yields exactly the same
samples in the same order, leaving the buffer empty. -/
theorem playback_roundTrip (xs : List Float) :
    (drainCycle xs.length (appendSamples emptyPlayBuffer xs)).1 = xs
      ∧ (drainCycle xs.length (appendSamples emptyPlayBuffer xs)).2 = [] := by
  rw [appendSamples, emptyPlayBuffer, List.nil_append, drainCycle_eq]
  simp

/-- C7 counterexample: the claim fails as stated.  On a VAD collaborator
failure the worker does not skip the block with its state unchanged — the
`unwrap` panics (the step aborts with an error). -/
theorem vad_failure_not_skipped : ¬ ClaimC7 := by
  intro h
  exact nomatch h 10 initState [0.5]

/-- C7 (amended): when the VAD collaborator reports a failure, the worker
thread panics — `vad.is_voice_segment(..).unwrap()` propagates the failure
— aborting the whole receive loop, rather than logging and skipping the
block.  (No state update happens, but only because the thread dies.) -/
theorem vad_failure_panics (threshold : Nat) (s : RecState) (b : List Float)
    (evs : List WorkerEvent) :
    processStep threshold s b (.error ()) = .error ()
      ∧ processAudio threshold s (.cont b (.error ()) :: evs) = .error () :=
  ⟨rfl, rfl⟩

/-- C8 counterexample: the claim fails as stated for the callback installed
by `main` (`src/main.rs`): when the channel send fails the closure
`unwrap`s and panics instead of returning a `Continue` outcome. -/
theorem main_callback_panics_on_failure : ¬ ClaimC8 := by
  intro h
  obtain ⟨r, hr, _⟩ := h [0.5] true false [] 4
  exact nomatch hr

/-- C8 (amended): the repository has two real-time callbacks.  The
`JackClient::start` handler (`src/sound/audio_jack.rs`) absorbs every
internal failure: it always returns `Continue`, and on a send or lock
failure it leaves the playback buffer untouched.  The legacy closure in
`main` (`src/main.rs`) instead panics when the send fails or the lock is
poisoned. -/
theorem callback_failure_policy (inBuf : List Float)
    (receiverGone lockPoisoned : Bool) (playBuf : List Float) (nOut : Nat) :
    (jackClientCallback inBuf receiverGone lockPoisoned playBuf nOut).control
        = .Continue
      ∧ (receiverGone = true ∨ lockPoisoned = true →
          (jackClientCallback inBuf receiverGone lockPoisoned playBuf
              nOut).playBuffer = playBuf)
      ∧ mainCallback inBuf true lockPoisoned playBuf nOut = .error ()
      ∧ mainCallback inBuf false true playBuf nOut = .error () := by
  cases receiverGone <;> cases lockPoisoned <;>
    simp [jackClientCallback, mainCallback]

/-- Witness for `callback_failure_policy` at a concrete failing cycle. -/
theorem callback_failure_policy_witness :
    (jackClientCallback [0.5] true false [] 4).control = .Continue
      ∧ (jackClientCallback [0.5] true false [] 4).playBuffer = [] :=
  ⟨(callback_failure_policy [0.5] true false [] 4).1,
   (callback_failure_policy [0.5] true false [] 4).2.1 (Or.inl rfl)⟩

/-- C9 counterexample: the claim fails as stated for the worker of
`src/main.rs`: on a TTS request failure `translate_and_play` panics (the
`unwrap`s propagate), so the worker does not continue to the next
message. -/
theorem synthesis_failure_crashes_worker : ¬ ClaimC9 := by
  intro h
  exact nomatch h [] "hello" (fun _ _ _ => .error ())

/-- C9 (amended): on a synthesis failure (TTS request / WAV parse /
resampling) the playback buffer is never touched — in `play_tts`
(`src/piper.rs`) every fallible stage returns with `?` before the buffer
lock is taken, handing the error to the caller; in `translate_and_play`
(`src/main.rs`) the same failures panic the worker thread instead of
letting it continue. -/
theorem synthesis_failure_buffer_unchanged (playBuf : List Float)
    (resampler : List Float → Nat → Nat → Except Unit (List Float))
    (transcription : String) (ints : List Int) (rate : Nat) :
    play_tts playBuf (.error ()) resampler = (.error (), playBuf)
      ∧ (resampler (ints.map i16ToFloat) rate 48000 = .error () →
          play_tts playBuf (.ok (ints, rate)) resampler
            = (.error (), playBuf))
      ∧ (trimmedEmpty transcription = false →
          translate_and_play playBuf transcription (.error ()) resampler
            = .error ()) := by
  refine ⟨rfl, ?_, ?_⟩
  · intro h
    simp [play_tts, h]
  · intro h
    simp [translate_and_play, h]

/-- Witness for `synthesis_failure_buffer_unchanged` at concrete failing
synthesis calls. -/
theorem synthesis_failure_buffer_unchanged_witness :
    play_tts [] (.error ()) (fun _ _ _ => .error ()) = (.error (), [])
      ∧ play_tts [] (.ok ([], 22050)) (fun _ _ _ => .error ())
          = (.error (), [])
      ∧ translate_and_play [] "hello" (.error ()) (fun _ _ _ => .error ())
          = .error () :=
  ⟨(synthesis_failure_buffer_unchanged [] (fun _ _ _ => .error ())
      "hello" [] 22050).1,
   (synthesis_failure_buffer_unchanged [] (fun _ _ _ => .error ())
      "hello" [] 22050).2.1 rfl,
   (synthesis_failure_buffer_unchanged [] (fun _ _ _ => .error ())
      "hello" [] 22050).2.2 (by decide)⟩

/-- C10: every successful `resample(samples, from, to)` call with
`from > 0` returns exactly `⌈samples.len · to / from⌉ + 512` samples
(`⌈/⌉` is the natural-number ceiling division): the allocated output buffer
is 512 samples longer than the exact rate-converted length, `process_float`
cannot resize it, and the whole buffer is returned, trailing padding
included. -/
theorem resample_length (o : SpeexOracle) (samples : List Float)
    (fromRate toRate : Nat) (_hpos : 0 < fromRate) (res : List Float)
    (hres : resample o samples fromRate toRate = .ok res) :
    res.length = samples.length * toRate ⌈/⌉ fromRate + 512 := by
  rw [Nat.ceilDiv_eq_add_pred_div]
  unfold resample at hres
  cases hnew : o.newState fromRate toRate with
  | error e => rw [hnew] at hres; exact nomatch hres
  | ok u =>
    rw [hnew] at hres
    cases hpf : o.processFloat samples
        (List.replicate (resampledLen samples.length fromRate toRate) 0.0) with
    | error e => rw [hpf] at hres; exact nomatch hres
    | ok r =>
      rw [hpf] at hres
      have hr : r = res := by injection hres
      have hlen := o.processFloat_length _ _ _ hpf
      rw [hr] at hlen
      rw [hlen]
      simp [resampledLen]

/-- Witness for `resample_length` with a trivial collaborator that
succeeds and returns the buffer it was handed. -/
theorem resample_length_witness :
    ((0 : Nat) < 2)
      ∧ (List.replicate 513 (0.0 : Float)).length = 1 * 1 ⌈/⌉ 2 + 512 :=
  ⟨Nat.zero_lt_two,
   resample_length
     ⟨fun _ _ => .ok (), fun _ out => .ok out,
      fun _ _ _ hpf => by injection hpf with h2; rw [h2]⟩
     [0.5] 2 1 Nat.zero_lt_two (List.replicate 513 (0.0 : Float)) rfl⟩

end LiveTranslate
